import Mathlib

/-!
Verification of the ACQDTE configuration and persistence layer.

The development shallowly embeds the two source files:

* src/config.py — a pydantic v1 BaseSettings model `Settings` with bounded
  and enumerated fields, a pre-validator `parse_symbols` for the SYMBOLS
  field, and module-level construction of a global `settings` instance
  followed by loguru sink configuration.
* src/firebase_manager.py — the `FirebaseManager` class.  The file is
  truncated inside `__init__`, so the gateway operations (write/read/delete,
  retry policy) are modelled from the spec where indicated.

Python values relevant to validation are embedded as `PyVal`; machine floats
used for the bounded fractional fields are embedded as rationals (the bounds
and all values of interest are exactly representable); fallible construction
returns `Except`.
-/

namespace ACQDTE

/-- Embedding of the Python values that can reach the SYMBOLS validator:
strings, ints, rationals (for floats), booleans, None, and lists. -/
inductive PyVal where
  | str (s : String)
  | int (n : Int)
  | num (q : ℚ)
  | bool (b : Bool)
  | nullv
  | list (l : List PyVal)

/-- src/config.py lines 14-17: `class TradingMode(str, Enum)` with members
PAPER = "paper", LIVE = "live", BACKTEST = "backtest". -/
inductive TradingMode where
  | PAPER
  | LIVE
  | BACKTEST
deriving DecidableEq

/-- The string value of each `TradingMode` member (it is a str-Enum). -/
def TradingMode.value : TradingMode → String
  | .PAPER => "paper"
  | .LIVE => "live"
  | .BACKTEST => "backtest"

/-- Pydantic v1 enum coercion: an incoming raw value is accepted iff it equals
the value of some member; the member is returned. -/
def tradingModeOfValue (s : String) : Option TradingMode :=
  if s = "paper" then some TradingMode.PAPER
  else if s = "live" then some TradingMode.LIVE
  else if s = "backtest" then some TradingMode.BACKTEST
  else none

/-- src/config.py lines 19-22: `class QuantumAlgorithm(str, Enum)` with members
QAOA = "qaoa", VQE = "vqe", QUANTUM_ANNEALING = "quantum_annealing". -/
inductive QuantumAlgorithm where
  | QAOA
  | VQE
  | QUANTUM_ANNEALING
deriving DecidableEq

/-- The string value of each `QuantumAlgorithm` member. -/
def QuantumAlgorithm.value : QuantumAlgorithm → String
  | .QAOA => "qaoa"
  | .VQE => "vqe"
  | .QUANTUM_ANNEALING => "quantum_annealing"

/-- Pydantic v1 enum coercion for `QuantumAlgorithm`. -/
def quantumAlgorithmOfValue (s : String) : Option QuantumAlgorithm :=
  if s = "qaoa" then some QuantumAlgorithm.QAOA
  else if s = "vqe" then some QuantumAlgorithm.VQE
  else if s = "quantum_annealing" then some QuantumAlgorithm.QUANTUM_ANNEALING
  else none

/-- A single pydantic validation error: the offending field's name and the
constraint message. -/
structure FieldError where
  field : String
  msg : String
deriving DecidableEq

/-- src/config.py lines 24-106: the validated `Settings` record.  Field
defaults are the `Field(default=...)` declarations of the source; the two
float fields are embedded as rationals. -/
structure Settings where
  FIREBASE_CREDENTIALS_PATH : String := "config/firebase-credentials.json"
  FIRESTORE_DATABASE : String := "(default)"
  TRADING_MODE : TradingMode := TradingMode.PAPER
  DEFAULT_EXCHANGE : String := "binance"
  SYMBOLS : List PyVal := [PyVal.str "BTC/USDT", PyVal.str "ETH/USDT", PyVal.str "SOL/USDT"]
  QUANTUM_ALGORITHM : QuantumAlgorithm := QuantumAlgorithm.QAOA
  QUANTUM_ITERATIONS : Int := 1000
  RL_EPOCHS : Int := 10000
  NEUROEVOLUTION_POPULATION : Int := 50
  MAX_POSITION_SIZE : ℚ := 1 / 10
  STOP_LOSS_PERCENT : ℚ := 1 / 50
  TELEGRAM_BOT_TOKEN : Option String := none
  TELEGRAM_CHAT_ID : Option String := none
  LOG_LEVEL : String := "INFO"
  HEARTBEAT_INTERVAL : Int := 60

/-- One source of raw configuration input (explicit overrides, or
environment-sourced values): for each field, either absent or a raw value.
Enumerated fields arrive as their raw string tags; the SYMBOLS field arrives
as an arbitrary Python value (string or sequence). -/
structure SettingsInput where
  firebase_credentials_path : Option String := none
  firestore_database : Option String := none
  trading_mode : Option String := none
  default_exchange : Option String := none
  symbols : Option PyVal := none
  quantum_algorithm : Option String := none
  quantum_iterations : Option Int := none
  rl_epochs : Option Int := none
  neuroevolution_population : Option Int := none
  max_position_size : Option ℚ := none
  stop_loss_percent : Option ℚ := none
  telegram_bot_token : Option String := none
  telegram_chat_id : Option String := none
  log_level : Option String := none
  heartbeat_interval : Option Int := none

/-- Pydantic v1 BaseSettings source priority: values from the
higher-priority source (explicit init overrides) win; the lower-priority
source (environment) fills the gaps.  Declared defaults fill whatever both
leave absent, during validation. -/
def mergeInput (hi lo : SettingsInput) : SettingsInput where
  firebase_credentials_path := hi.firebase_credentials_path <|> lo.firebase_credentials_path
  firestore_database := hi.firestore_database <|> lo.firestore_database
  trading_mode := hi.trading_mode <|> lo.trading_mode
  default_exchange := hi.default_exchange <|> lo.default_exchange
  symbols := hi.symbols <|> lo.symbols
  quantum_algorithm := hi.quantum_algorithm <|> lo.quantum_algorithm
  quantum_iterations := hi.quantum_iterations <|> lo.quantum_iterations
  rl_epochs := hi.rl_epochs <|> lo.rl_epochs
  neuroevolution_population := hi.neuroevolution_population <|> lo.neuroevolution_population
  max_position_size := hi.max_position_size <|> lo.max_position_size
  stop_loss_percent := hi.stop_loss_percent <|> lo.stop_loss_percent
  telegram_bot_token := hi.telegram_bot_token <|> lo.telegram_bot_token
  telegram_chat_id := hi.telegram_chat_id <|> lo.telegram_chat_id
  log_level := hi.log_level <|> lo.log_level
  heartbeat_interval := hi.heartbeat_interval <|> lo.heartbeat_interval

/-- Python's `s.split(",")` over the character list of `s`: the maximal
runs of characters between commas, in order; `n` commas yield `n + 1`
pieces, so the empty string yields the single empty piece. -/
def pySplitComma : List Char → List (List Char)
  | [] => [[]]
  | c :: cs =>
    match pySplitComma cs with
    | [] => [[]]
    | w :: ws => if c = ',' then [] :: w :: ws else (c :: w) :: ws

/-- Python's `s.strip()` over a character list: drop leading and trailing
whitespace. -/
def pyStrip (l : List Char) : List Char :=
  ((l.dropWhile Char.isWhitespace).reverse.dropWhile Char.isWhitespace).reverse

/-- Joining with a comma between consecutive pieces: the inverse of
splitting on commas, used to characterise `pySplitComma`. -/
def joinComma : List (List Char) → List Char
  | [] => []
  | [w] => w
  | w :: ws => w ++ ',' :: joinComma ws

/-- src/config.py lines 112-116: the `parse_symbols` pre-validator.  A string
is split on commas and each piece stripped of surrounding whitespace; any
other value is returned unchanged. -/
def parse_symbols (v : PyVal) : PyVal :=
  match v with
  | .str s => .list ((pySplitComma s.toList).map (fun w => PyVal.str (String.mk (pyStrip w))))
  | w => w

/-- Validation of a plain string field: pydantic accepts any string; an
absent value takes the declared default. -/
def validateStrField (o : Option String) (dflt : String) : Except FieldError String :=
  Except.ok (o.getD dflt)

/-- Validation of `TRADING_MODE` (src/config.py lines 36-39): enum membership,
default `TradingMode.PAPER`. -/
def validateTRADING_MODE (o : Option String) : Except FieldError TradingMode :=
  match o with
  | none => Except.ok TradingMode.PAPER
  | some s =>
    match tradingModeOfValue s with
    | some m => Except.ok m
    | none => Except.error ⟨"TRADING_MODE", "value is not a valid enumeration member"⟩

/-- Validation of `QUANTUM_ALGORITHM` (src/config.py lines 50-53): enum
membership, default `QuantumAlgorithm.QAOA`. -/
def validateQUANTUM_ALGORITHM (o : Option String) : Except FieldError QuantumAlgorithm :=
  match o with
  | none => Except.ok QuantumAlgorithm.QAOA
  | some s =>
    match quantumAlgorithmOfValue s with
    | some a => Except.ok a
    | none => Except.error ⟨"QUANTUM_ALGORITHM", "value is not a valid enumeration member"⟩

/-- Validation of `SYMBOLS` (src/config.py lines 44-47 and 112-116): the
pre-validator runs first; the bare `list` annotation then requires a list but
constrains nothing about the elements; default is the three-symbol list. -/
def validateSYMBOLS (o : Option PyVal) : Except FieldError (List PyVal) :=
  match o with
  | none => Except.ok [PyVal.str "BTC/USDT", PyVal.str "ETH/USDT", PyVal.str "SOL/USDT"]
  | some v =>
    match parse_symbols v with
    | .list l => Except.ok l
    | _ => Except.error ⟨"SYMBOLS", "value is not a valid list"⟩

/-- Validation of `QUANTUM_ITERATIONS` (src/config.py lines 54-59):
default 1000, ge = 100, le = 10000. -/
def validateQUANTUM_ITERATIONS (o : Option Int) : Except FieldError Int :=
  match o with
  | none => Except.ok 1000
  | some v =>
    if v < 100 then
      Except.error ⟨"QUANTUM_ITERATIONS", "ensure this value is greater than or equal to 100"⟩
    else if 10000 < v then
      Except.error ⟨"QUANTUM_ITERATIONS", "ensure this value is less than or equal to 10000"⟩
    else Except.ok v

/-- Validation of `RL_EPOCHS` (src/config.py lines 62-66): default 10000,
ge = 1000, no upper bound. -/
def validateRL_EPOCHS (o : Option Int) : Except FieldError Int :=
  match o with
  | none => Except.ok 10000
  | some v =>
    if v < 1000 then
      Except.error ⟨"RL_EPOCHS", "ensure this value is greater than or equal to 1000"⟩
    else Except.ok v

/-- Validation of `NEUROEVOLUTION_POPULATION` (src/config.py lines 67-72):
default 50, ge = 10, le = 500. -/
def validateNEUROEVOLUTION_POPULATION (o : Option Int) : Except FieldError Int :=
  match o with
  | none => Except.ok 50
  | some v =>
    if v < 10 then
      Except.error ⟨"NEUROEVOLUTION_POPULATION", "ensure this value is greater than or equal to 10"⟩
    else if 500 < v then
      Except.error ⟨"NEUROEVOLUTION_POPULATION", "ensure this value is less than or equal to 500"⟩
    else Except.ok v

/-- Validation of `MAX_POSITION_SIZE` (src/config.py lines 75-80):
default 0.1, ge = 0.01, le = 0.5. -/
def validateMAX_POSITION_SIZE (o : Option ℚ) : Except FieldError ℚ :=
  match o with
  | none => Except.ok (1 / 10)
  | some v =>
    if v < 1 / 100 then
      Except.error ⟨"MAX_POSITION_SIZE", "ensure this value is greater than or equal to 0.01"⟩
    else if 1 / 2 < v then
      Except.error ⟨"MAX_POSITION_SIZE", "ensure this value is less than or equal to 0.5"⟩
    else Except.ok v

/-- Validation of `STOP_LOSS_PERCENT` (src/config.py lines 81-86):
default 0.02, ge = 0.005, le = 0.1. -/
def validateSTOP_LOSS_PERCENT (o : Option ℚ) : Except FieldError ℚ :=
  match o with
  | none => Except.ok (1 / 50)
  | some v =>
    if v < 1 / 200 then
      Except.error ⟨"STOP_LOSS_PERCENT", "ensure this value is greater than or equal to 0.005"⟩
    else if 1 / 10 < v then
      Except.error ⟨"STOP_LOSS_PERCENT", "ensure this value is less than or equal to 0.1"⟩
    else Except.ok v

/-- Validation of the optional string fields `TELEGRAM_BOT_TOKEN` and
`TELEGRAM_CHAT_ID` (src/config.py lines 89-96): default None, any string
accepted. -/
def validateOptStrField (o : Option String) : Except FieldError (Option String) :=
  Except.ok o

/-- Validation of the unbounded int field `HEARTBEAT_INTERVAL`
(src/config.py lines 103-106): default 60, no bounds declared. -/
def validateHEARTBEAT_INTERVAL (o : Option Int) : Except FieldError Int :=
  Except.ok (o.getD 60)

/-- The error produced by one field's validation, if any. -/
def errOf {α : Type} (e : Except FieldError α) : Option FieldError :=
  match e with
  | .ok _ => none
  | .error err => some err

/-- The validated value of one field, when validation succeeded; the default
otherwise (only consulted on the all-fields-valid path). -/
def okOr {α : Type} (e : Except FieldError α) (dflt : α) : α :=
  match e with
  | .ok a => a
  | .error _ => dflt

/-- The per-field validation outcomes of one merged input, in the declaration
order of src/config.py. -/
def fieldErrorSlots (inp : SettingsInput) : List (Option FieldError) :=
  [ errOf (validateStrField inp.firebase_credentials_path "config/firebase-credentials.json"),
    errOf (validateStrField inp.firestore_database "(default)"),
    errOf (validateTRADING_MODE inp.trading_mode),
    errOf (validateStrField inp.default_exchange "binance"),
    errOf (validateSYMBOLS inp.symbols),
    errOf (validateQUANTUM_ALGORITHM inp.quantum_algorithm),
    errOf (validateQUANTUM_ITERATIONS inp.quantum_iterations),
    errOf (validateRL_EPOCHS inp.rl_epochs),
    errOf (validateNEUROEVOLUTION_POPULATION inp.neuroevolution_population),
    errOf (validateMAX_POSITION_SIZE inp.max_position_size),
    errOf (validateSTOP_LOSS_PERCENT inp.stop_loss_percent),
    errOf (validateOptStrField inp.telegram_bot_token),
    errOf (validateOptStrField inp.telegram_chat_id),
    errOf (validateStrField inp.log_level "INFO"),
    errOf (validateHEARTBEAT_INTERVAL inp.heartbeat_interval) ]

/-- All field errors of one merged input, in field declaration order
(pydantic v1 validates every field and collects all errors). -/
def fieldErrors (inp : SettingsInput) : List FieldError :=
  (fieldErrorSlots inp).filterMap id

/-- Pydantic construction of `Settings` from the merged input: validate every
field; if any field fails, raise a ValidationError carrying all the field
errors and produce no object; otherwise produce the record whose fields are
the validated values (absent fields take the declared defaults). -/
def validateSettings (inp : SettingsInput) : Except (List FieldError) Settings :=
  let errs := fieldErrors inp
  if errs.isEmpty then
    Except.ok
      { FIREBASE_CREDENTIALS_PATH := inp.firebase_credentials_path.getD "config/firebase-credentials.json"
        FIRESTORE_DATABASE := inp.firestore_database.getD "(default)"
        TRADING_MODE := okOr (validateTRADING_MODE inp.trading_mode) TradingMode.PAPER
        DEFAULT_EXCHANGE := inp.default_exchange.getD "binance"
        SYMBOLS := okOr (validateSYMBOLS inp.symbols)
          [PyVal.str "BTC/USDT", PyVal.str "ETH/USDT", PyVal.str "SOL/USDT"]
        QUANTUM_ALGORITHM := okOr (validateQUANTUM_ALGORITHM inp.quantum_algorithm) QuantumAlgorithm.QAOA
        QUANTUM_ITERATIONS := okOr (validateQUANTUM_ITERATIONS inp.quantum_iterations) 1000
        RL_EPOCHS := okOr (validateRL_EPOCHS inp.rl_epochs) 10000
        NEUROEVOLUTION_POPULATION := okOr (validateNEUROEVOLUTION_POPULATION inp.neuroevolution_population) 50
        MAX_POSITION_SIZE := okOr (validateMAX_POSITION_SIZE inp.max_position_size) (1 / 10)
        STOP_LOSS_PERCENT := okOr (validateSTOP_LOSS_PERCENT inp.stop_loss_percent) (1 / 50)
        TELEGRAM_BOT_TOKEN := inp.telegram_bot_token
        TELEGRAM_CHAT_ID := inp.telegram_chat_id
        LOG_LEVEL := inp.log_level.getD "INFO"
        HEARTBEAT_INTERVAL := inp.heartbeat_interval.getD 60 }
  else Except.error errs

/-! ### Module-level side effects of src/config.py (lines 118-134)

Importing the module runs, after the import statements and class definitions:
`settings = Settings()`, `logger.remove()`, a first `logger.add` with a file
sink and `level=settings.LOG_LEVEL`, and a second `logger.add` whose first
argument is `sys.stdout` — but `sys` is never imported (lines 6-12 import
os, typing names, pydantic names, dataclass, Enum, logging and loguru's
logger only), so that expression raises NameError when reached. -/

/-- The names bound at module level in src/config.py by the time line 130
executes: the imported names (lines 6-12) and the module's own definitions
(lines 14, 19, 24, 119).  `sys` is not among them. -/
def configModuleBoundNames : List String :=
  [ "os", "Dict", "Any", "Optional", "BaseSettings", "Field", "validator",
    "dataclass", "Enum", "logging", "logger",
    "TradingMode", "QuantumAlgorithm", "Settings", "settings" ]

/-- The level names loguru recognises; `logger.add` raises ValueError for a
level string not among them. -/
def loguruLevelNames : List String :=
  ["TRACE", "DEBUG", "INFO", "SUCCESS", "WARNING", "ERROR", "CRITICAL"]

/-- The possible outcomes of importing src/config.py. -/
inductive ModuleLoadResult where
  | loaded
  | validationError (errs : List FieldError)
  | valueError (field : String)
  | nameError (missing : String)

/-- Whether the outcome is a NameError. -/
def ModuleLoadResult.isNameError : ModuleLoadResult → Bool
  | .nameError _ => true
  | _ => false

/-- Whether the outcome is a successful load. -/
def ModuleLoadResult.isLoaded : ModuleLoadResult → Bool
  | .loaded => true
  | _ => false

/-- Importing src/config.py under a given environment input, statement by
statement: line 119 constructs `settings = Settings()` (raising
ValidationError on invalid input); line 122 `logger.remove()` has no
observable effect here; line 123 `logger.add(file sink, level=...)` raises
ValueError for an unrecognised level name; line 130 `logger.add(sys.stdout,
...)` resolves the free name `sys` against the module's bound names and
raises NameError when it is absent. -/
def loadConfigModule (envInput : SettingsInput) : ModuleLoadResult :=
  match validateSettings envInput with
  | .error errs => ModuleLoadResult.validationError errs
  | .ok s =>
    if s.LOG_LEVEL ∈ loguruLevelNames then
      if "sys" ∈ configModuleBoundNames then ModuleLoadResult.loaded
      else ModuleLoadResult.nameError "sys"
    else ModuleLoadResult.valueError "LOG_LEVEL"

/-! ### Mutability of the constructed Settings object

src/config.py lines 108-110 declare an inner `Config` that sets only
`env_file` and `env_file_encoding`.  In pydantic v1 the remaining model
options keep their defaults: `allow_mutation = True` and
`validate_assignment = False`, so attribute assignment on a constructed
model replaces the field without running any validation. -/

/-- The pydantic v1 model options relevant to mutation, with pydantic's
defaults for the options the source does not set. -/
structure PydanticModelOptions where
  env_file : Option String := none
  env_file_encoding : Option String := none
  allow_mutation : Bool := true
  validate_assignment : Bool := false

/-- src/config.py lines 108-110: the `Settings.Config` inner class sets
`env_file = ".env"` and `env_file_encoding = "utf-8"` and nothing else. -/
def settingsModelOptions : PydanticModelOptions :=
  { env_file := some ".env", env_file_encoding := some "utf-8" }

/-- Pydantic v1 `__setattr__` semantics applied to the QUANTUM_ITERATIONS
field: if `allow_mutation` is false, assignment raises TypeError; otherwise,
if `validate_assignment` is true the field validator runs, and if it is
false the raw value is stored unvalidated. -/
def setattrQUANTUM_ITERATIONS (opts : PydanticModelOptions) (s : Settings)
    (v : Int) : Except String Settings :=
  if opts.allow_mutation then
    if opts.validate_assignment then
      match validateQUANTUM_ITERATIONS (some v) with
      | .ok w => Except.ok { s with QUANTUM_ITERATIONS := w }
      | .error e => Except.error e.msg
    else Except.ok { s with QUANTUM_ITERATIONS := v }
  else Except.error "TypeError: Settings is immutable"

/-- The numeric-bound invariants declared by the `Field` annotations of
src/config.py, as a predicate on a constructed record. -/
def SettingsInBounds (s : Settings) : Prop :=
  100 ≤ s.QUANTUM_ITERATIONS ∧ s.QUANTUM_ITERATIONS ≤ 10000 ∧
  1000 ≤ s.RL_EPOCHS ∧
  10 ≤ s.NEUROEVOLUTION_POPULATION ∧ s.NEUROEVOLUTION_POPULATION ≤ 500 ∧
  1 / 100 ≤ s.MAX_POSITION_SIZE ∧ s.MAX_POSITION_SIZE ≤ 1 / 2 ∧
  1 / 200 ≤ s.STOP_LOSS_PERCENT ∧ s.STOP_LOSS_PERCENT ≤ 1 / 10

/-! ### The Firebase document-store gateway

src/firebase_manager.py declares `class FirebaseManager` (lines 16-19) but
the file is truncated inside `__init__`: no method body is present under
src/.  The gateway operations and the retry policy are therefore modelled
from the spec (sections 4.3 and 7), as flagged on each definition. -/

/-- Modelled from the spec: the error taxonomy of section 7 — transient
classifications (network timeout, rate limiting, transient server error)
versus non-transient ones (authentication, malformed reference, permission
denial).  The method bodies of FirebaseManager are missing from
src/firebase_manager.py. -/
inductive FailureClass where
  | networkTimeout
  | rateLimited
  | transientServerError
  | authFailure
  | malformedReference
  | permissionDenied
deriving DecidableEq

/-- Modelled from the spec: which failure classifications are transient
(retried) and which are not (surfaced immediately). -/
def FailureClass.isTransient : FailureClass → Bool
  | .networkTimeout => true
  | .rateLimited => true
  | .transientServerError => true
  | .authFailure => false
  | .malformedReference => false
  | .permissionDenied => false

/-- Modelled from the spec: the gateway's default bounded attempt count
(spec section 4.3: "up to a bounded attempt count (default 3)"). -/
def DEFAULT_MAX_ATTEMPTS : Nat := 3

/-- Modelled from the spec: the exponential-backoff delay before retry
number k+1 (base delay doubled after every transient failure). -/
def backoffDelay (base : ℚ) (k : Nat) : ℚ := base * 2 ^ k

/-- Modelled from the spec: the retry loop of a gateway operation.  The
transport is a function from attempt index to outcome.  Attempt `i` is made;
on success or on a non-transient failure the loop stops at once; on a
transient failure the loop retries while retry budget (`fuel`) remains.
Returns the surfaced outcome and the number of attempts made. -/
def runAttempts {α : Type} (transport : Nat → Except FailureClass α) :
    Nat → Nat → Except FailureClass α × Nat
  | i, 0 =>
    match transport i with
    | .ok a => (Except.ok a, 1)
    | .error c => (Except.error c, 1)
  | i, fuel + 1 =>
    match transport i with
    | .ok a => (Except.ok a, 1)
    | .error c =>
      if c.isTransient then
        let r := runAttempts transport (i + 1) fuel
        (r.1, r.2 + 1)
      else (Except.error c, 1)

/-- Modelled from the spec: one gateway operation run under the default
retry policy: at most `DEFAULT_MAX_ATTEMPTS` attempts in total, so a budget
of `DEFAULT_MAX_ATTEMPTS - 1` retries after the first attempt. -/
def gatewayCall {α : Type} (transport : Nat → Except FailureClass α) :
    Except FailureClass α × Nat :=
  runAttempts transport 0 (DEFAULT_MAX_ATTEMPTS - 1)

/-- Modelled from the spec: a document reference, an identifier pair
(collection name, document key). -/
abbrev DocRef := String × String

/-- Modelled from the spec: a document payload, a mapping from field name to
value (absent fields map to none). -/
abbrev Payload := String → Option PyVal

/-- Modelled from the spec: the document store's state, a mapping from
reference to stored payload (absent documents map to none). -/
abbrev Store := DocRef → Option Payload

/-- Modelled from the spec: the Operation Result of a single document
operation — success or a classified failure, with no partial-success
state. -/
inductive OpResult where
  | success
  | failure (c : FailureClass)
deriving DecidableEq

/-- Modelled from the spec: the outcome of a read — the current payload, or
the distinguished NotFound outcome (not an error). -/
inductive ReadResult where
  | found (p : Payload)
  | notFound

/-- Whether a read outcome is the distinguished NotFound outcome. -/
def ReadResult.isNotFound : ReadResult → Bool
  | .notFound => true
  | .found _ => false

namespace FirebaseManager

/-- Modelled from the spec: `write(ref, payload, mergeFields)` — creates the
document if absent or updates it; with `mergeFields` omitted the whole
document is replaced; with `mergeFields` provided only the named top-level
fields are replaced and the others are left untouched.  The method bodies of
FirebaseManager are missing from src/firebase_manager.py. -/
def write (st : Store) (ref : DocRef) (payload : Payload)
    (mergeFields : Option (List String)) : Store :=
  fun r =>
    if r = ref then
      match mergeFields with
      | none => some payload
      | some fields =>
        match st ref with
        | none => some (fun f => if f ∈ fields then payload f else none)
        | some old => some (fun f => if f ∈ fields then payload f else old f)
    else st r

/-- Modelled from the spec: `read(ref)` — the current payload, or NotFound
when no document exists at the reference. -/
def read (st : Store) (ref : DocRef) : ReadResult :=
  match st ref with
  | some p => ReadResult.found p
  | none => ReadResult.notFound

/-- Modelled from the spec: `delete(ref)` — removes the document when
present; deleting a non-existent document is a success, not an error. -/
def delete (st : Store) (ref : DocRef) : OpResult × Store :=
  (OpResult.success, fun r => if r = ref then none else st r)

end FirebaseManager

/-! ### Concrete inputs used by the witness theorems -/

/-- A configuration input in which every bounded or enumerated field is
given an invalid value. -/
def allBadInput : SettingsInput :=
  { trading_mode := some "bogus"
    quantum_algorithm := some "grover"
    quantum_iterations := some 50
    rl_epochs := some 10
    neuroevolution_population := some 5
    max_position_size := some 1
    stop_loss_percent := some 1 }

/-- An environment input whose QUANTUM_ITERATIONS value is below the lower
bound 100. -/
def badQuantumEnv : SettingsInput := { quantum_iterations := some 5 }

/-- A concrete explicit-override input: sets the quantum iteration count and
the log level. -/
def ovInput : SettingsInput :=
  { quantum_iterations := some 2000, log_level := some "DEBUG" }

/-- A concrete environment-sourced input: sets the quantum iteration count
(shadowed by the explicit override), the heartbeat interval, and a
string-valued symbols list. -/
def envInput : SettingsInput :=
  { quantum_iterations := some 9999
    heartbeat_interval := some 120
    symbols := some (PyVal.str "BTC/USDT, ETH/USDT") }

/-- A concrete stored payload with fields "a" and "b". -/
def payloadAB : Payload :=
  fun f => if f = "a" then some (PyVal.int 1)
    else if f = "b" then some (PyVal.int 2) else none

/-- A concrete incoming payload naming only field "a". -/
def payloadA9 : Payload :=
  fun f => if f = "a" then some (PyVal.int 9) else none

/-- A concrete document reference. -/
def refPos : DocRef := ("positions", "doc1")

/-- A concrete store holding `payloadAB` at `refPos` and nothing else. -/
def storeOne : Store :=
  fun r => if r = refPos then some payloadAB else none

/-- The empty store. -/
def storeEmpty : Store := fun _ => none

/-! ## Helper lemmas -/

theorem validate_error_of_slot (inp : SettingsInput) (err : FieldError)
    (h : some err ∈ fieldErrorSlots inp) :
    ∃ errs, validateSettings inp = Except.error errs ∧
      err.field ∈ errs.map FieldError.field := by
  have hmem : err ∈ fieldErrors inp := by
    unfold fieldErrors
    exact List.mem_filterMap.mpr ⟨some err, h, rfl⟩
  have hne : fieldErrors inp ≠ [] := List.ne_nil_of_mem hmem
  have hE : (fieldErrors inp).isEmpty = false := by
    simp [List.isEmpty_eq_false, hne]
  refine ⟨fieldErrors inp, ?_, List.mem_map_of_mem _ hmem⟩
  unfold validateSettings
  simp [hE]

theorem validateTRADING_MODE_invalid (t : String)
    (h : t ∉ (["paper", "live", "backtest"] : List String)) :
    validateTRADING_MODE (some t) =
      Except.error ⟨"TRADING_MODE", "value is not a valid enumeration member"⟩ := by
  simp only [List.mem_cons, List.not_mem_nil, or_false, not_or] at h
  obtain ⟨h1, h2, h3⟩ := h
  simp [validateTRADING_MODE, tradingModeOfValue, h1, h2, h3]

theorem validateQUANTUM_ALGORITHM_invalid (a : String)
    (h : a ∉ (["qaoa", "vqe", "quantum_annealing"] : List String)) :
    validateQUANTUM_ALGORITHM (some a) =
      Except.error ⟨"QUANTUM_ALGORITHM", "value is not a valid enumeration member"⟩ := by
  simp only [List.mem_cons, List.not_mem_nil, or_false, not_or] at h
  obtain ⟨h1, h2, h3⟩ := h
  simp [validateQUANTUM_ALGORITHM, quantumAlgorithmOfValue, h1, h2, h3]

theorem validateQUANTUM_ITERATIONS_invalid (v : Int) (h : v < 100 ∨ 10000 < v) :
    ∃ m, validateQUANTUM_ITERATIONS (some v) =
      Except.error ⟨"QUANTUM_ITERATIONS", m⟩ := by
  simp only [validateQUANTUM_ITERATIONS]
  rcases h with h | h
  · exact ⟨_, by rw [if_pos h]⟩
  · have h1 : ¬ v < 100 := by omega
    exact ⟨_, by rw [if_neg h1, if_pos h]⟩

theorem validateRL_EPOCHS_invalid (v : Int) (h : v < 1000) :
    ∃ m, validateRL_EPOCHS (some v) = Except.error ⟨"RL_EPOCHS", m⟩ := by
  simp only [validateRL_EPOCHS]
  exact ⟨_, by rw [if_pos h]⟩

theorem validateNEUROEVOLUTION_POPULATION_invalid (v : Int)
    (h : v < 10 ∨ 500 < v) :
    ∃ m, validateNEUROEVOLUTION_POPULATION (some v) =
      Except.error ⟨"NEUROEVOLUTION_POPULATION", m⟩ := by
  simp only [validateNEUROEVOLUTION_POPULATION]
  rcases h with h | h
  · exact ⟨_, by rw [if_pos h]⟩
  · have h1 : ¬ v < 10 := by omega
    exact ⟨_, by rw [if_neg h1, if_pos h]⟩

theorem validateMAX_POSITION_SIZE_invalid (q : ℚ) (h : q < 1 / 100 ∨ 1 / 2 < q) :
    ∃ m, validateMAX_POSITION_SIZE (some q) =
      Except.error ⟨"MAX_POSITION_SIZE", m⟩ := by
  simp only [validateMAX_POSITION_SIZE]
  rcases h with h | h
  · exact ⟨_, by rw [if_pos h]⟩
  · have h1 : ¬ q < 1 / 100 := by linarith
    exact ⟨_, by rw [if_neg h1, if_pos h]⟩

theorem validateSTOP_LOSS_PERCENT_invalid (q : ℚ) (h : q < 1 / 200 ∨ 1 / 10 < q) :
    ∃ m, validateSTOP_LOSS_PERCENT (some q) =
      Except.error ⟨"STOP_LOSS_PERCENT", m⟩ := by
  simp only [validateSTOP_LOSS_PERCENT]
  rcases h with h | h
  · exact ⟨_, by rw [if_pos h]⟩
  · have h1 : ¬ q < 1 / 200 := by linarith
    exact ⟨_, by rw [if_neg h1, if_pos h]⟩

/-! ## Claim C1 -/

/-- C1: For every configuration input in which some field value is outside
its declared inclusive bounds or not a member of its enumerated set (trading
mode not in the paper/live/backtest set, optimization algorithm not in the
qaoa/vqe/quantum_annealing set, quantum iterations outside [100, 10000],
epochs below 1000, population outside [10, 500], max position size outside
[0.01, 0.5], stop-loss outside [0.005, 0.1]), Settings construction fails
atomically with a validation error naming the offending field: the
constructor returns `Except.error`, so no partially-valid Settings object is
produced. -/
theorem settings_invalid_field_fails (inp : SettingsInput) :
    (∀ t, inp.trading_mode = some t →
      t ∉ (["paper", "live", "backtest"] : List String) →
      ∃ errs, validateSettings inp = Except.error errs ∧
        "TRADING_MODE" ∈ errs.map FieldError.field) ∧
    (∀ a, inp.quantum_algorithm = some a →
      a ∉ (["qaoa", "vqe", "quantum_annealing"] : List String) →
      ∃ errs, validateSettings inp = Except.error errs ∧
        "QUANTUM_ALGORITHM" ∈ errs.map FieldError.field) ∧
    (∀ v, inp.quantum_iterations = some v → v < 100 ∨ 10000 < v →
      ∃ errs, validateSettings inp = Except.error errs ∧
        "QUANTUM_ITERATIONS" ∈ errs.map FieldError.field) ∧
    (∀ v, inp.rl_epochs = some v → v < 1000 →
      ∃ errs, validateSettings inp = Except.error errs ∧
        "RL_EPOCHS" ∈ errs.map FieldError.field) ∧
    (∀ v, inp.neuroevolution_population = some v → v < 10 ∨ 500 < v →
      ∃ errs, validateSettings inp = Except.error errs ∧
        "NEUROEVOLUTION_POPULATION" ∈ errs.map FieldError.field) ∧
    (∀ q, inp.max_position_size = some q → q < 1 / 100 ∨ 1 / 2 < q →
      ∃ errs, validateSettings inp = Except.error errs ∧
        "MAX_POSITION_SIZE" ∈ errs.map FieldError.field) ∧
    (∀ q, inp.stop_loss_percent = some q → q < 1 / 200 ∨ 1 / 10 < q →
      ∃ errs, validateSettings inp = Except.error errs ∧
        "STOP_LOSS_PERCENT" ∈ errs.map FieldError.field) := by
  refine ⟨?_, ?_, ?_, ?_, ?_, ?_, ?_⟩
  · intro t ht hmem
    have he : errOf (validateTRADING_MODE inp.trading_mode) =
        some ⟨"TRADING_MODE", "value is not a valid enumeration member"⟩ := by
      rw [ht, validateTRADING_MODE_invalid t hmem]; rfl
    have hslot : some (⟨"TRADING_MODE", "value is not a valid enumeration member"⟩ : FieldError) ∈
        fieldErrorSlots inp := by
      rw [← he]; simp [fieldErrorSlots]
    exact validate_error_of_slot inp _ hslot
  · intro a ha hmem
    have he : errOf (validateQUANTUM_ALGORITHM inp.quantum_algorithm) =
        some ⟨"QUANTUM_ALGORITHM", "value is not a valid enumeration member"⟩ := by
      rw [ha, validateQUANTUM_ALGORITHM_invalid a hmem]; rfl
    have hslot : some (⟨"QUANTUM_ALGORITHM", "value is not a valid enumeration member"⟩ : FieldError) ∈
        fieldErrorSlots inp := by
      rw [← he]; simp [fieldErrorSlots]
    exact validate_error_of_slot inp _ hslot
  · intro v hv hb
    obtain ⟨m, hm⟩ := validateQUANTUM_ITERATIONS_invalid v hb
    have he : errOf (validateQUANTUM_ITERATIONS inp.quantum_iterations) =
        some ⟨"QUANTUM_ITERATIONS", m⟩ := by rw [hv, hm]; rfl
    have hslot : some (⟨"QUANTUM_ITERATIONS", m⟩ : FieldError) ∈ fieldErrorSlots inp := by
      rw [← he]; simp [fieldErrorSlots]
    exact validate_error_of_slot inp _ hslot
  · intro v hv hb
    obtain ⟨m, hm⟩ := validateRL_EPOCHS_invalid v hb
    have he : errOf (validateRL_EPOCHS inp.rl_epochs) =
        some ⟨"RL_EPOCHS", m⟩ := by rw [hv, hm]; rfl
    have hslot : some (⟨"RL_EPOCHS", m⟩ : FieldError) ∈ fieldErrorSlots inp := by
      rw [← he]; simp [fieldErrorSlots]
    exact validate_error_of_slot inp _ hslot
  · intro v hv hb
    obtain ⟨m, hm⟩ := validateNEUROEVOLUTION_POPULATION_invalid v hb
    have he : errOf (validateNEUROEVOLUTION_POPULATION inp.neuroevolution_population) =
        some ⟨"NEUROEVOLUTION_POPULATION", m⟩ := by rw [hv, hm]; rfl
    have hslot : some (⟨"NEUROEVOLUTION_POPULATION", m⟩ : FieldError) ∈ fieldErrorSlots inp := by
      rw [← he]; simp [fieldErrorSlots]
    exact validate_error_of_slot inp _ hslot
  · intro q hq hb
    obtain ⟨m, hm⟩ := validateMAX_POSITION_SIZE_invalid q hb
    have he : errOf (validateMAX_POSITION_SIZE inp.max_position_size) =
        some ⟨"MAX_POSITION_SIZE", m⟩ := by rw [hq, hm]; rfl
    have hslot : some (⟨"MAX_POSITION_SIZE", m⟩ : FieldError) ∈ fieldErrorSlots inp := by
      rw [← he]; simp [fieldErrorSlots]
    exact validate_error_of_slot inp _ hslot
  · intro q hq hb
    obtain ⟨m, hm⟩ := validateSTOP_LOSS_PERCENT_invalid q hb
    have he : errOf (validateSTOP_LOSS_PERCENT inp.stop_loss_percent) =
        some ⟨"STOP_LOSS_PERCENT", m⟩ := by rw [hq, hm]; rfl
    have hslot : some (⟨"STOP_LOSS_PERCENT", m⟩ : FieldError) ∈ fieldErrorSlots inp := by
      rw [← he]; simp [fieldErrorSlots]
    exact validate_error_of_slot inp _ hslot

/-- C1 witness: on the concrete input `allBadInput`, whose seven bounded or
enumerated fields are all invalid, construction fails and the error list
names every offending field. -/
theorem settings_invalid_field_fails_witness :
    validateSettings allBadInput = Except.error (fieldErrors allBadInput) ∧
    "TRADING_MODE" ∈ (fieldErrors allBadInput).map FieldError.field ∧
    "QUANTUM_ALGORITHM" ∈ (fieldErrors allBadInput).map FieldError.field ∧
    "QUANTUM_ITERATIONS" ∈ (fieldErrors allBadInput).map FieldError.field ∧
    "RL_EPOCHS" ∈ (fieldErrors allBadInput).map FieldError.field ∧
    "NEUROEVOLUTION_POPULATION" ∈ (fieldErrors allBadInput).map FieldError.field ∧
    "MAX_POSITION_SIZE" ∈ (fieldErrors allBadInput).map FieldError.field ∧
    "STOP_LOSS_PERCENT" ∈ (fieldErrors allBadInput).map FieldError.field := by
  have h := settings_invalid_field_fails allBadInput
  have hval : validateSettings allBadInput = Except.error (fieldErrors allBadInput) := rfl
  obtain ⟨e1, he1, hf1⟩ := h.1 "bogus" rfl (by decide)
  obtain ⟨e2, he2, hf2⟩ := h.2.1 "grover" rfl (by decide)
  obtain ⟨e3, he3, hf3⟩ := h.2.2.1 50 rfl (Or.inl (by decide))
  obtain ⟨e4, he4, hf4⟩ := h.2.2.2.1 10 rfl (by decide)
  obtain ⟨e5, he5, hf5⟩ := h.2.2.2.2.1 5 rfl (Or.inl (by decide))
  obtain ⟨e6, he6, hf6⟩ := h.2.2.2.2.2.1 1 rfl (Or.inr (by norm_num))
  obtain ⟨e7, he7, hf7⟩ := h.2.2.2.2.2.2 1 rfl (Or.inr (by norm_num))
  rw [(Except.error.injEq _ _).mp (hval.symm.trans he1) |>.symm] at hf1
  rw [(Except.error.injEq _ _).mp (hval.symm.trans he2) |>.symm] at hf2
  rw [(Except.error.injEq _ _).mp (hval.symm.trans he3) |>.symm] at hf3
  rw [(Except.error.injEq _ _).mp (hval.symm.trans he4) |>.symm] at hf4
  rw [(Except.error.injEq _ _).mp (hval.symm.trans he5) |>.symm] at hf5
  rw [(Except.error.injEq _ _).mp (hval.symm.trans he6) |>.symm] at hf6
  rw [(Except.error.injEq _ _).mp (hval.symm.trans he7) |>.symm] at hf7
  exact ⟨hval, hf1, hf2, hf3, hf4, hf5, hf6, hf7⟩

/-! ## Helper lemmas for the all-fields-valid path -/

theorem slots_none_of_no_errors (inp : SettingsInput)
    (h : fieldErrors inp = []) :
    ∀ o ∈ fieldErrorSlots inp, o = none := by
  intro o ho
  have := List.filterMap_eq_nil_iff.mp h o ho
  simpa using this

theorem validateSettings_ok_elim (inp : SettingsInput) (s : Settings)
    (h : validateSettings inp = Except.ok s) :
    fieldErrors inp = [] ∧
    s = { FIREBASE_CREDENTIALS_PATH := inp.firebase_credentials_path.getD "config/firebase-credentials.json"
          FIRESTORE_DATABASE := inp.firestore_database.getD "(default)"
          TRADING_MODE := okOr (validateTRADING_MODE inp.trading_mode) TradingMode.PAPER
          DEFAULT_EXCHANGE := inp.default_exchange.getD "binance"
          SYMBOLS := okOr (validateSYMBOLS inp.symbols)
            [PyVal.str "BTC/USDT", PyVal.str "ETH/USDT", PyVal.str "SOL/USDT"]
          QUANTUM_ALGORITHM := okOr (validateQUANTUM_ALGORITHM inp.quantum_algorithm) QuantumAlgorithm.QAOA
          QUANTUM_ITERATIONS := okOr (validateQUANTUM_ITERATIONS inp.quantum_iterations) 1000
          RL_EPOCHS := okOr (validateRL_EPOCHS inp.rl_epochs) 10000
          NEUROEVOLUTION_POPULATION := okOr (validateNEUROEVOLUTION_POPULATION inp.neuroevolution_population) 50
          MAX_POSITION_SIZE := okOr (validateMAX_POSITION_SIZE inp.max_position_size) (1 / 10)
          STOP_LOSS_PERCENT := okOr (validateSTOP_LOSS_PERCENT inp.stop_loss_percent) (1 / 50)
          TELEGRAM_BOT_TOKEN := inp.telegram_bot_token
          TELEGRAM_CHAT_ID := inp.telegram_chat_id
          LOG_LEVEL := inp.log_level.getD "INFO"
          HEARTBEAT_INTERVAL := inp.heartbeat_interval.getD 60 } := by
  unfold validateSettings at h
  cases hE : (fieldErrors inp).isEmpty with
  | false => simp [hE] at h
  | true =>
    simp only [hE, if_true, Except.ok.injEq] at h
    exact ⟨List.isEmpty_iff.mp hE, h.symm⟩

theorem tradingModeOfValue_value (t : String) (m : TradingMode)
    (h : tradingModeOfValue t = some m) : m.value = t := by
  unfold tradingModeOfValue at h
  split_ifs at h with h1 h2 h3
  · injection h with h'; subst h'; simp [TradingMode.value, h1]
  · injection h with h'; subst h'; simp [TradingMode.value, h2]
  · injection h with h'; subst h'; simp [TradingMode.value, h3]

theorem quantumAlgorithmOfValue_value (a : String) (m : QuantumAlgorithm)
    (h : quantumAlgorithmOfValue a = some m) : m.value = a := by
  unfold quantumAlgorithmOfValue at h
  split_ifs at h with h1 h2 h3
  · injection h with h'; subst h'; simp [QuantumAlgorithm.value, h1]
  · injection h with h'; subst h'; simp [QuantumAlgorithm.value, h2]
  · injection h with h'; subst h'; simp [QuantumAlgorithm.value, h3]

theorem okOr_validateTRADING_MODE (o : Option String)
    (h : errOf (validateTRADING_MODE o) = none) :
    (o = none → okOr (validateTRADING_MODE o) TradingMode.PAPER = TradingMode.PAPER) ∧
    (∀ t, o = some t → (okOr (validateTRADING_MODE o) TradingMode.PAPER).value = t) := by
  constructor
  · rintro rfl; rfl
  · rintro t rfl
    simp only [validateTRADING_MODE] at h ⊢
    cases htm : tradingModeOfValue t with
    | none => rw [htm] at h; simp [errOf] at h
    | some m => exact tradingModeOfValue_value t m htm

theorem okOr_validateQUANTUM_ALGORITHM (o : Option String)
    (h : errOf (validateQUANTUM_ALGORITHM o) = none) :
    (o = none → okOr (validateQUANTUM_ALGORITHM o) QuantumAlgorithm.QAOA = QuantumAlgorithm.QAOA) ∧
    (∀ a, o = some a → (okOr (validateQUANTUM_ALGORITHM o) QuantumAlgorithm.QAOA).value = a) := by
  constructor
  · rintro rfl; rfl
  · rintro a rfl
    simp only [validateQUANTUM_ALGORITHM] at h ⊢
    cases hqa : quantumAlgorithmOfValue a with
    | none => rw [hqa] at h; simp [errOf] at h
    | some m => exact quantumAlgorithmOfValue_value a m hqa

theorem okOr_validateSYMBOLS (o : Option PyVal)
    (h : errOf (validateSYMBOLS o) = none) :
    (o = none → okOr (validateSYMBOLS o)
        [PyVal.str "BTC/USDT", PyVal.str "ETH/USDT", PyVal.str "SOL/USDT"] =
        [PyVal.str "BTC/USDT", PyVal.str "ETH/USDT", PyVal.str "SOL/USDT"]) ∧
    (∀ v, o = some v → parse_symbols v = PyVal.list (okOr (validateSYMBOLS o)
        [PyVal.str "BTC/USDT", PyVal.str "ETH/USDT", PyVal.str "SOL/USDT"])) := by
  constructor
  · rintro rfl; rfl
  · rintro v rfl
    simp only [validateSYMBOLS] at h ⊢
    cases hp : parse_symbols v with
    | list l => rfl
    | str s => rw [hp] at h; simp [errOf] at h
    | int n => rw [hp] at h; simp [errOf] at h
    | num q => rw [hp] at h; simp [errOf] at h
    | bool b => rw [hp] at h; simp [errOf] at h
    | nullv => rw [hp] at h; simp [errOf] at h

theorem okOr_validateQUANTUM_ITERATIONS (o : Option Int)
    (h : errOf (validateQUANTUM_ITERATIONS o) = none) :
    okOr (validateQUANTUM_ITERATIONS o) 1000 = o.getD 1000 ∧
    100 ≤ okOr (validateQUANTUM_ITERATIONS o) 1000 ∧
    okOr (validateQUANTUM_ITERATIONS o) 1000 ≤ 10000 := by
  cases o with
  | none => exact ⟨rfl, by decide, by decide⟩
  | some v =>
    simp only [validateQUANTUM_ITERATIONS] at h ⊢
    by_cases h1 : v < 100
    · rw [if_pos h1] at h; simp [errOf] at h
    · rw [if_neg h1] at h ⊢
      by_cases h2 : 10000 < v
      · rw [if_pos h2] at h; simp [errOf] at h
      · rw [if_neg h2] at h ⊢
        exact ⟨rfl, by simp [okOr]; omega, by simp [okOr]; omega⟩

theorem okOr_validateRL_EPOCHS (o : Option Int)
    (h : errOf (validateRL_EPOCHS o) = none) :
    okOr (validateRL_EPOCHS o) 10000 = o.getD 10000 ∧
    1000 ≤ okOr (validateRL_EPOCHS o) 10000 := by
  cases o with
  | none => exact ⟨rfl, by decide⟩
  | some v =>
    simp only [validateRL_EPOCHS] at h ⊢
    by_cases h1 : v < 1000
    · rw [if_pos h1] at h; simp [errOf] at h
    · rw [if_neg h1] at h ⊢
      exact ⟨rfl, by simp [okOr]; omega⟩

theorem okOr_validateNEUROEVOLUTION_POPULATION (o : Option Int)
    (h : errOf (validateNEUROEVOLUTION_POPULATION o) = none) :
    okOr (validateNEUROEVOLUTION_POPULATION o) 50 = o.getD 50 ∧
    10 ≤ okOr (validateNEUROEVOLUTION_POPULATION o) 50 ∧
    okOr (validateNEUROEVOLUTION_POPULATION o) 50 ≤ 500 := by
  cases o with
  | none => exact ⟨rfl, by decide, by decide⟩
  | some v =>
    simp only [validateNEUROEVOLUTION_POPULATION] at h ⊢
    by_cases h1 : v < 10
    · rw [if_pos h1] at h; simp [errOf] at h
    · rw [if_neg h1] at h ⊢
      by_cases h2 : 500 < v
      · rw [if_pos h2] at h; simp [errOf] at h
      · rw [if_neg h2] at h ⊢
        exact ⟨rfl, by simp [okOr]; omega, by simp [okOr]; omega⟩

theorem okOr_validateMAX_POSITION_SIZE (o : Option ℚ)
    (h : errOf (validateMAX_POSITION_SIZE o) = none) :
    okOr (validateMAX_POSITION_SIZE o) (1 / 10) = o.getD (1 / 10) ∧
    1 / 100 ≤ okOr (validateMAX_POSITION_SIZE o) (1 / 10) ∧
    okOr (validateMAX_POSITION_SIZE o) (1 / 10) ≤ 1 / 2 := by
  cases o with
  | none => exact ⟨rfl, by norm_num [validateMAX_POSITION_SIZE, okOr], by norm_num [validateMAX_POSITION_SIZE, okOr]⟩
  | some v =>
    simp only [validateMAX_POSITION_SIZE] at h ⊢
    by_cases h1 : v < 1 / 100
    · rw [if_pos h1] at h; simp [errOf] at h
    · rw [if_neg h1] at h ⊢
      by_cases h2 : 1 / 2 < v
      · rw [if_pos h2] at h; simp [errOf] at h
      · rw [if_neg h2] at h ⊢
        exact ⟨rfl, by simp [okOr]; linarith, by simp [okOr]; linarith⟩

theorem okOr_validateSTOP_LOSS_PERCENT (o : Option ℚ)
    (h : errOf (validateSTOP_LOSS_PERCENT o) = none) :
    okOr (validateSTOP_LOSS_PERCENT o) (1 / 50) = o.getD (1 / 50) ∧
    1 / 200 ≤ okOr (validateSTOP_LOSS_PERCENT o) (1 / 50) ∧
    okOr (validateSTOP_LOSS_PERCENT o) (1 / 50) ≤ 1 / 10 := by
  cases o with
  | none => exact ⟨rfl, by norm_num [validateSTOP_LOSS_PERCENT, okOr], by norm_num [validateSTOP_LOSS_PERCENT, okOr]⟩
  | some v =>
    simp only [validateSTOP_LOSS_PERCENT] at h ⊢
    by_cases h1 : v < 1 / 200
    · rw [if_pos h1] at h; simp [errOf] at h
    · rw [if_neg h1] at h ⊢
      by_cases h2 : 1 / 10 < v
      · rw [if_pos h2] at h; simp [errOf] at h
      · rw [if_neg h2] at h ⊢
        exact ⟨rfl, by simp [okOr]; linarith, by simp [okOr]; linarith⟩

/-! ## Claim C2 -/

/-- C2: For every pair of input sources (explicit overrides and
environment-sourced values) whose merged input validates with no field
error, Settings construction succeeds, and each field of the resulting
record equals the corresponding input value — the explicit override when
present, otherwise the environment value, otherwise the declared default —
with enumerated fields holding the member whose string value is the input
tag, and the SYMBOLS field holding the comma-split, whitespace-trimmed list
when the input was a string. -/
theorem settings_valid_merge_ok (ov env : SettingsInput)
    (h : fieldErrors (mergeInput ov env) = []) :
    ∃ s, validateSettings (mergeInput ov env) = Except.ok s ∧
      s.FIREBASE_CREDENTIALS_PATH =
        (ov.firebase_credentials_path <|> env.firebase_credentials_path).getD
          "config/firebase-credentials.json" ∧
      s.FIRESTORE_DATABASE =
        (ov.firestore_database <|> env.firestore_database).getD "(default)" ∧
      ((ov.trading_mode <|> env.trading_mode) = none →
        s.TRADING_MODE = TradingMode.PAPER) ∧
      (∀ t, (ov.trading_mode <|> env.trading_mode) = some t →
        s.TRADING_MODE.value = t) ∧
      s.DEFAULT_EXCHANGE = (ov.default_exchange <|> env.default_exchange).getD "binance" ∧
      ((ov.symbols <|> env.symbols) = none →
        s.SYMBOLS = [PyVal.str "BTC/USDT", PyVal.str "ETH/USDT", PyVal.str "SOL/USDT"]) ∧
      (∀ v, (ov.symbols <|> env.symbols) = some v →
        parse_symbols v = PyVal.list s.SYMBOLS) ∧
      ((ov.quantum_algorithm <|> env.quantum_algorithm) = none →
        s.QUANTUM_ALGORITHM = QuantumAlgorithm.QAOA) ∧
      (∀ a, (ov.quantum_algorithm <|> env.quantum_algorithm) = some a →
        s.QUANTUM_ALGORITHM.value = a) ∧
      s.QUANTUM_ITERATIONS = (ov.quantum_iterations <|> env.quantum_iterations).getD 1000 ∧
      s.RL_EPOCHS = (ov.rl_epochs <|> env.rl_epochs).getD 10000 ∧
      s.NEUROEVOLUTION_POPULATION =
        (ov.neuroevolution_population <|> env.neuroevolution_population).getD 50 ∧
      s.MAX_POSITION_SIZE = (ov.max_position_size <|> env.max_position_size).getD (1 / 10) ∧
      s.STOP_LOSS_PERCENT = (ov.stop_loss_percent <|> env.stop_loss_percent).getD (1 / 50) ∧
      s.TELEGRAM_BOT_TOKEN = (ov.telegram_bot_token <|> env.telegram_bot_token) ∧
      s.TELEGRAM_CHAT_ID = (ov.telegram_chat_id <|> env.telegram_chat_id) ∧
      s.LOG_LEVEL = (ov.log_level <|> env.log_level).getD "INFO" ∧
      s.HEARTBEAT_INTERVAL = (ov.heartbeat_interval <|> env.heartbeat_interval).getD 60 := by
  have hE : (fieldErrors (mergeInput ov env)).isEmpty = true := by
    rw [h]; rfl
  have hslots := slots_none_of_no_errors (mergeInput ov env) h
  have hTM : errOf (validateTRADING_MODE (mergeInput ov env).trading_mode) = none :=
    hslots _ (by simp [fieldErrorSlots])
  have hSY : errOf (validateSYMBOLS (mergeInput ov env).symbols) = none :=
    hslots _ (by simp [fieldErrorSlots])
  have hQA : errOf (validateQUANTUM_ALGORITHM (mergeInput ov env).quantum_algorithm) = none :=
    hslots _ (by simp [fieldErrorSlots])
  have hQI : errOf (validateQUANTUM_ITERATIONS (mergeInput ov env).quantum_iterations) = none :=
    hslots _ (by simp [fieldErrorSlots])
  have hRL : errOf (validateRL_EPOCHS (mergeInput ov env).rl_epochs) = none :=
    hslots _ (by simp [fieldErrorSlots])
  have hNP : errOf (validateNEUROEVOLUTION_POPULATION (mergeInput ov env).neuroevolution_population) = none :=
    hslots _ (by simp [fieldErrorSlots])
  have hMP : errOf (validateMAX_POSITION_SIZE (mergeInput ov env).max_position_size) = none :=
    hslots _ (by simp [fieldErrorSlots])
  have hSL : errOf (validateSTOP_LOSS_PERCENT (mergeInput ov env).stop_loss_percent) = none :=
    hslots _ (by simp [fieldErrorSlots])
  obtain ⟨s, hok⟩ : ∃ s, validateSettings (mergeInput ov env) = Except.ok s := by
    unfold validateSettings
    rw [if_pos hE]
    exact ⟨_, rfl⟩
  obtain ⟨-, hs⟩ := validateSettings_ok_elim _ _ hok
  subst hs
  refine ⟨_, hok, rfl, rfl, ?_, ?_, rfl, ?_, ?_, ?_, ?_, ?_, ?_, ?_, ?_, ?_, rfl, rfl, rfl, rfl⟩
  · exact (okOr_validateTRADING_MODE (mergeInput ov env).trading_mode hTM).1
  · exact (okOr_validateTRADING_MODE (mergeInput ov env).trading_mode hTM).2
  · exact (okOr_validateSYMBOLS (mergeInput ov env).symbols hSY).1
  · exact (okOr_validateSYMBOLS (mergeInput ov env).symbols hSY).2
  · exact (okOr_validateQUANTUM_ALGORITHM (mergeInput ov env).quantum_algorithm hQA).1
  · exact (okOr_validateQUANTUM_ALGORITHM (mergeInput ov env).quantum_algorithm hQA).2
  · exact (okOr_validateQUANTUM_ITERATIONS (mergeInput ov env).quantum_iterations hQI).1
  · exact (okOr_validateRL_EPOCHS (mergeInput ov env).rl_epochs hRL).1
  · exact (okOr_validateNEUROEVOLUTION_POPULATION (mergeInput ov env).neuroevolution_population hNP).1
  · exact (okOr_validateMAX_POSITION_SIZE (mergeInput ov env).max_position_size hMP).1
  · exact (okOr_validateSTOP_LOSS_PERCENT (mergeInput ov env).stop_loss_percent hSL).1

/-- C2 witness: on concrete sources `ovInput` (explicit) and `envInput`
(environment), construction succeeds; the explicit override wins for the
quantum iteration count and the log level, the environment fills the
heartbeat interval and the string-valued symbols list (which is split and
trimmed), and the untouched stop-loss keeps its default. -/
theorem settings_valid_merge_ok_witness :
    (validateSettings (mergeInput ovInput envInput)).map Settings.QUANTUM_ITERATIONS =
      Except.ok 2000 ∧
    (validateSettings (mergeInput ovInput envInput)).map Settings.LOG_LEVEL =
      Except.ok "DEBUG" ∧
    (validateSettings (mergeInput ovInput envInput)).map Settings.HEARTBEAT_INTERVAL =
      Except.ok 120 ∧
    (validateSettings (mergeInput ovInput envInput)).map Settings.SYMBOLS =
      Except.ok [PyVal.str "BTC/USDT", PyVal.str "ETH/USDT"] ∧
    (validateSettings (mergeInput ovInput envInput)).map Settings.STOP_LOSS_PERCENT =
      Except.ok (1 / 50) := by
  obtain ⟨s, hok, _, _, _, _, _, _, hsy, _, _, hqi, _, _, _, hsl, _, _, hlog, hhb⟩ :=
    settings_valid_merge_ok ovInput envInput rfl
  rw [hok]
  have hsy' : parse_symbols (PyVal.str "BTC/USDT, ETH/USDT") = PyVal.list s.SYMBOLS :=
    hsy _ rfl
  have hll : PyVal.list [PyVal.str "BTC/USDT", PyVal.str "ETH/USDT"] = PyVal.list s.SYMBOLS := by
    rw [← hsy']; rfl
  injection hll with hsyl
  refine ⟨?_, ?_, ?_, ?_, ?_⟩
  · simp only [Except.map, hqi]; rfl
  · simp only [Except.map, hlog]; rfl
  · simp only [Except.map, hhb]; rfl
  · simp only [Except.map, ← hsyl]
  · simp only [Except.map, hsl]; rfl

/-! ## Claim C9 -/

/-- C9: When the heartbeat interval field receives no value from any input
source, a successfully constructed Settings record has
HEARTBEAT_INTERVAL equal to 60. -/
theorem heartbeat_interval_default (inp : SettingsInput) (s : Settings)
    (h0 : inp.heartbeat_interval = none)
    (h : validateSettings inp = Except.ok s) :
    s.HEARTBEAT_INTERVAL = 60 := by
  obtain ⟨-, hs⟩ := validateSettings_ok_elim inp s h
  rw [hs]
  simp [h0]

/-- C9 witness: the all-defaults input constructs the default record, whose
heartbeat interval is 60. -/
theorem heartbeat_interval_default_witness : ({} : Settings).HEARTBEAT_INTERVAL = 60 :=
  heartbeat_interval_default {} {} rfl rfl

/-! ## Helper lemmas for the symbols split -/

theorem pySplitComma_ne_nil : ∀ cs : List Char, pySplitComma cs ≠ []
  | [] => by simp [pySplitComma]
  | c :: cs => by
    simp only [pySplitComma]
    cases h : pySplitComma cs with
    | nil => simp
    | cons w ws => dsimp only; split <;> simp

theorem joinComma_cons (c : Char) (w : List Char) (ws : List (List Char)) :
    joinComma ((c :: w) :: ws) = c :: joinComma (w :: ws) := by
  cases ws <;> rfl

theorem joinComma_pySplitComma : ∀ cs : List Char, joinComma (pySplitComma cs) = cs
  | [] => rfl
  | c :: cs => by
    simp only [pySplitComma]
    cases h : pySplitComma cs with
    | nil => exact absurd h (pySplitComma_ne_nil cs)
    | cons w ws =>
      dsimp only
      have IH : joinComma (w :: ws) = cs := by
        rw [← h]; exact joinComma_pySplitComma cs
      by_cases hc : c = ','
      · rw [if_pos hc]
        subst hc
        show ',' :: joinComma (w :: ws) = ',' :: cs
        rw [IH]
      · rw [if_neg hc, joinComma_cons, IH]

theorem pySplitComma_no_comma : ∀ cs : List Char, ∀ w ∈ pySplitComma cs, ',' ∉ w
  | [] => by
    intro w hw
    simp only [pySplitComma, List.mem_singleton] at hw
    subst hw; simp
  | c :: cs => by
    intro w hw
    simp only [pySplitComma] at hw
    have IH := pySplitComma_no_comma cs
    cases h : pySplitComma cs with
    | nil => exact absurd h (pySplitComma_ne_nil cs)
    | cons w0 ws =>
      rw [h] at hw IH
      dsimp only at hw
      by_cases hc : c = ','
      · rw [if_pos hc] at hw
        rcases List.mem_cons.mp hw with rfl | hw'
        · simp
        · exact IH w hw'
      · rw [if_neg hc] at hw
        rcases List.mem_cons.mp hw with rfl | hw'
        · intro hmem
          rcases List.mem_cons.mp hmem with h1 | h1
          · exact hc h1.symm
          · exact IH w0 (List.mem_cons_self w0 ws) h1
        · exact IH w (List.mem_cons.mpr (Or.inr hw'))

theorem head?_dropWhile_not (p : Char → Bool) :
    ∀ (l : List Char) (c : Char), (l.dropWhile p).head? = some c → p c = false
  | [], c => by simp [List.dropWhile]
  | x :: xs, c => by
    simp only [List.dropWhile]
    cases hx : p x with
    | true => exact head?_dropWhile_not p xs c
    | false =>
      intro h
      simp only [List.head?_cons, Option.some.injEq] at h
      rw [← h]
      exact hx

theorem pyStrip_head (l : List Char) (c : Char)
    (h : (pyStrip l).head? = some c) : c.isWhitespace = false := by
  unfold pyStrip at h
  rw [List.head?_reverse] at h
  obtain ⟨a, ha⟩ := List.dropWhile_suffix (l := (l.dropWhile Char.isWhitespace).reverse)
    Char.isWhitespace
  have hYlast : (l.dropWhile Char.isWhitespace).reverse.getLast? = some c := by
    rw [← ha, List.getLast?_append, h]
    rfl
  rw [List.getLast?_reverse] at hYlast
  exact head?_dropWhile_not Char.isWhitespace l c hYlast

theorem pyStrip_last (l : List Char) (c : Char)
    (h : (pyStrip l).getLast? = some c) : c.isWhitespace = false := by
  unfold pyStrip at h
  rw [List.getLast?_reverse] at h
  exact head?_dropWhile_not Char.isWhitespace _ c h

/-! ## Claim C4 -/

/-- C4: `parse_symbols` splits a string input on commas and trims
surrounding whitespace from each element: on the concrete scenario input
"BTC/USDT, ETH/USDT,SOL/USDT" it yields exactly the ordered three-element
list, a native list input is accepted as-is, the split pieces joined back
with commas reconstruct the input (so it splits on every comma), no piece
contains a comma, and a stripped piece has no leading or trailing
whitespace. -/
theorem parse_symbols_split_and_trim :
    parse_symbols (PyVal.str "BTC/USDT, ETH/USDT,SOL/USDT") =
      PyVal.list [PyVal.str "BTC/USDT", PyVal.str "ETH/USDT", PyVal.str "SOL/USDT"] ∧
    (∀ l : List PyVal, parse_symbols (PyVal.list l) = PyVal.list l) ∧
    (∀ cs : List Char, joinComma (pySplitComma cs) = cs) ∧
    (∀ cs : List Char, ∀ w ∈ pySplitComma cs, ',' ∉ w) ∧
    (∀ w : List Char, ∀ c : Char, (pyStrip w).head? = some c → c.isWhitespace = false) ∧
    (∀ w : List Char, ∀ c : Char, (pyStrip w).getLast? = some c → c.isWhitespace = false) :=
  ⟨rfl, fun _ => rfl, joinComma_pySplitComma, pySplitComma_no_comma,
   pyStrip_head, pyStrip_last⟩

/-- C4 witness: the piece " ETH/USDT" produced from the scenario input
contains no comma, and stripping "  x " leaves a piece whose first and last
character x is not whitespace. -/
theorem parse_symbols_split_and_trim_witness :
    (',' ∉ ([' ', 'E', 'T', 'H', '/', 'U', 'S', 'D', 'T'] : List Char)) ∧
    ('x'.isWhitespace = false) :=
  ⟨parse_symbols_split_and_trim.2.2.2.1 "BTC/USDT, ETH/USDT,SOL/USDT".toList
      [' ', 'E', 'T', 'H', '/', 'U', 'S', 'D', 'T'] (by decide),
   parse_symbols_split_and_trim.2.2.2.2.1 "  x ".toList 'x' (by decide)⟩

/-! ## Claim C10 -/

/-- C10: `parse_symbols` is total but unvalidated at the edges: the empty
string yields the one-element list holding the empty string (not the empty
list), any non-string value is returned unchanged, and since the SYMBOLS
field is a bare `list` with no element type, a native list containing
non-string elements passes SYMBOLS validation as-is. -/
theorem parse_symbols_edge_cases :
    parse_symbols (PyVal.str "") = PyVal.list [PyVal.str ""] ∧
    (∀ v : PyVal, (∀ s, v ≠ PyVal.str s) → parse_symbols v = v) ∧
    validateSYMBOLS (some (PyVal.list [PyVal.int 42, PyVal.nullv])) =
      Except.ok [PyVal.int 42, PyVal.nullv] := by
  refine ⟨rfl, ?_, rfl⟩
  intro v hv
  cases v with
  | str s => exact absurd rfl (hv s)
  | int n => rfl
  | num q => rfl
  | bool b => rfl
  | nullv => rfl
  | list l => rfl

/-- C10 witness: a concrete non-string value (an integer) passes through
`parse_symbols` unchanged. -/
theorem parse_symbols_edge_cases_witness :
    parse_symbols (PyVal.int 7) = PyVal.int 7 :=
  parse_symbols_edge_cases.2.1 (PyVal.int 7) (fun _ h => PyVal.noConfusion h)

/-! ## Claim C3 -/

/-- C3 counterexample: the claim says importing src/config.py always raises
NameError for every environment and every configuration input; but under
the environment `badQuantumEnv` (QUANTUM_ITERATIONS set to 5), line 119
`settings = Settings()` raises ValidationError first, so the import fails
with ValidationError, not NameError. -/
theorem config_import_counterexample :
    (loadConfigModule badQuantumEnv).isNameError = false ∧
    loadConfigModule badQuantumEnv =
      ModuleLoadResult.validationError
        [⟨"QUANTUM_ITERATIONS", "ensure this value is greater than or equal to 100"⟩] :=
  ⟨rfl, rfl⟩

/-- C3 (amended): importing src/config.py never succeeds in any
environment — so the global settings instance and the configured logger are
never produced by a successful import — and in every environment in which
Settings construction succeeds and the log level is a recognised level
name, the import raises NameError at the `sys.stdout` reference, because
`sys` is never imported. -/
theorem config_import_never_loads (env : SettingsInput) :
    (loadConfigModule env).isLoaded = false ∧
    (∀ s, validateSettings env = Except.ok s → s.LOG_LEVEL ∈ loguruLevelNames →
      loadConfigModule env = ModuleLoadResult.nameError "sys") := by
  constructor
  · unfold loadConfigModule
    cases h : validateSettings env with
    | error errs => rfl
    | ok s =>
      dsimp only
      by_cases hl : s.LOG_LEVEL ∈ loguruLevelNames
      · rw [if_pos hl, if_neg (by decide : ¬ ("sys" ∈ configModuleBoundNames))]
        rfl
      · rw [if_neg hl]; rfl
  · intro s hs hl
    unfold loadConfigModule
    rw [hs]
    dsimp only
    rw [if_pos hl, if_neg (by decide : ¬ ("sys" ∈ configModuleBoundNames))]

/-- C3 witness: under the all-defaults environment, construction succeeds
with log level INFO, and the import fails with NameError on `sys`; it does
not load. -/
theorem config_import_never_loads_witness :
    loadConfigModule {} = ModuleLoadResult.nameError "sys" ∧
    (loadConfigModule {}).isLoaded = false :=
  ⟨(config_import_never_loads {}).2 {} rfl (by decide),
   (config_import_never_loads {}).1⟩

/-! ## Claim C5 -/

/-- C5 counterexample: the claim says a constructed Settings record is
immutable and its fields stay within their declared bounds for the process
lifetime; but with the model options actually declared by
`Settings.Config` (which leaves pydantic's `allow_mutation = True` and
`validate_assignment = False` defaults in place), assigning 5 to
QUANTUM_ITERATIONS on the default-constructed record succeeds without
validation and leaves the record outside its declared bounds. -/
theorem settings_mutation_counterexample :
    setattrQUANTUM_ITERATIONS settingsModelOptions {} 5 =
      Except.ok { QUANTUM_ITERATIONS := 5 } ∧
    ¬ SettingsInBounds { QUANTUM_ITERATIONS := 5 } :=
  ⟨rfl, fun h => absurd h.1 (by decide)⟩

/-- C5 (amended): every successfully constructed Settings record satisfies
the declared numeric bounds at construction time, and nothing in the
repository mutates the record; but the class itself does not enforce
immutability: with the declared `Settings.Config` options, attribute
assignment succeeds and replaces the field without any validation. -/
theorem settings_construction_bounds_and_mutability :
    (∀ inp s, validateSettings inp = Except.ok s → SettingsInBounds s) ∧
    (∀ (s : Settings) (v : Int),
      setattrQUANTUM_ITERATIONS settingsModelOptions s v =
        Except.ok { s with QUANTUM_ITERATIONS := v }) := by
  constructor
  · intro inp s h
    obtain ⟨hfe, hs⟩ := validateSettings_ok_elim inp s h
    have hslots := slots_none_of_no_errors inp hfe
    have hQI := okOr_validateQUANTUM_ITERATIONS inp.quantum_iterations
      (hslots _ (by simp [fieldErrorSlots]))
    have hRL := okOr_validateRL_EPOCHS inp.rl_epochs
      (hslots _ (by simp [fieldErrorSlots]))
    have hNP := okOr_validateNEUROEVOLUTION_POPULATION inp.neuroevolution_population
      (hslots _ (by simp [fieldErrorSlots]))
    have hMP := okOr_validateMAX_POSITION_SIZE inp.max_position_size
      (hslots _ (by simp [fieldErrorSlots]))
    have hSL := okOr_validateSTOP_LOSS_PERCENT inp.stop_loss_percent
      (hslots _ (by simp [fieldErrorSlots]))
    subst hs
    exact ⟨hQI.2.1, hQI.2.2, hRL.2, hNP.2.1, hNP.2.2, hMP.2.1, hMP.2.2, hSL.2.1, hSL.2.2⟩
  · intro s v
    rfl

/-- C5 amended witness: the default-constructed record is in bounds, and a
concrete assignment of 7 succeeds, bypassing validation. -/
theorem settings_construction_bounds_and_mutability_witness :
    SettingsInBounds ({} : Settings) ∧
    setattrQUANTUM_ITERATIONS settingsModelOptions {} 7 =
      Except.ok { QUANTUM_ITERATIONS := 7 } :=
  ⟨settings_construction_bounds_and_mutability.1 {} {} rfl,
   settings_construction_bounds_and_mutability.2 {} 7⟩

/-! ## Helper lemmas for the retry loop -/

theorem runAttempts_const_error_transient {α : Type}
    (transport : Nat → Except FailureClass α) (c : FailureClass)
    (hc : c.isTransient = true) (h : ∀ n, transport n = Except.error c) :
    ∀ fuel i, runAttempts transport i fuel = (Except.error c, fuel + 1) := by
  intro fuel
  induction fuel with
  | zero =>
    intro i
    simp only [runAttempts]
    rw [h i]
  | succ f ih =>
    intro i
    simp only [runAttempts]
    rw [h i]
    simp only [hc, if_true]
    rw [ih (i + 1)]

theorem runAttempts_const_error_nontransient {α : Type}
    (transport : Nat → Except FailureClass α) (c : FailureClass)
    (hc : c.isTransient = false) (h : ∀ n, transport n = Except.error c) :
    ∀ fuel i, runAttempts transport i fuel = (Except.error c, 1) := by
  intro fuel i
  cases fuel with
  | zero =>
    simp only [runAttempts]
    rw [h i]
  | succ f =>
    simp only [runAttempts]
    rw [h i]
    simp [hc]

theorem runAttempts_attempts_le {α : Type}
    (transport : Nat → Except FailureClass α) :
    ∀ fuel i, (runAttempts transport i fuel).2 ≤ fuel + 1 := by
  intro fuel
  induction fuel with
  | zero =>
    intro i
    simp only [runAttempts]
    cases transport i <;> simp
  | succ f ih =>
    intro i
    simp only [runAttempts]
    cases transport i with
    | ok a => simp
    | error c =>
      by_cases hc : c.isTransient
      · simp only [hc, if_true]
        have := ih (i + 1)
        omega
      · simp [hc]

/-! ## Claim C6 -/

/-- C6: For a gateway operation whose transport fails identically on every
attempt: a transiently-classified failure (network timeout, rate limiting,
transient server error) is retried until the default bounded attempt count
of 3 is exhausted and the classified error is then surfaced with exactly 3
attempts made; a non-transiently-classified failure (authentication,
malformed reference, permission denial) is surfaced after exactly one
attempt with no retry.  In all cases the attempt count never exceeds the
default bound, and the backoff delay doubles on each successive retry
(exponential backoff). -/
theorem gateway_retry_policy {α : Type} (transport : Nat → Except FailureClass α)
    (c : FailureClass) (h : ∀ n, transport n = Except.error c) :
    (c.isTransient = true →
      gatewayCall transport = (Except.error c, DEFAULT_MAX_ATTEMPTS)) ∧
    (c.isTransient = false →
      gatewayCall transport = (Except.error c, 1)) ∧
    (gatewayCall transport).2 ≤ DEFAULT_MAX_ATTEMPTS ∧
    (∀ (base : ℚ) (k : Nat), backoffDelay base (k + 1) = 2 * backoffDelay base k) := by
  refine ⟨?_, ?_, ?_, ?_⟩
  · intro hc
    unfold gatewayCall
    rw [runAttempts_const_error_transient transport c hc h]
    rfl
  · intro hc
    unfold gatewayCall
    exact runAttempts_const_error_nontransient transport c hc h _ _
  · exact runAttempts_attempts_le transport _ _
  · intro base k
    unfold backoffDelay
    rw [pow_succ]
    ring

/-- C6 witness: a transport that always fails with permission denial is
attempted exactly once and the classified error is surfaced; a transport
that always times out is attempted exactly 3 times before the classified
error is surfaced. -/
theorem gateway_retry_policy_witness :
    gatewayCall (fun _ => (Except.error FailureClass.permissionDenied : Except FailureClass Unit)) =
      (Except.error FailureClass.permissionDenied, 1) ∧
    gatewayCall (fun _ => (Except.error FailureClass.networkTimeout : Except FailureClass Unit)) =
      (Except.error FailureClass.networkTimeout, DEFAULT_MAX_ATTEMPTS) :=
  ⟨(gateway_retry_policy _ FailureClass.permissionDenied (fun _ => rfl)).2.1 rfl,
   (gateway_retry_policy _ FailureClass.networkTimeout (fun _ => rfl)).1 rfl⟩

/-! ## Claim C7 -/

/-- C7: For every document whose stored payload has fields A and B, a write
with mergeFields naming only A stores a payload whose A field is the
incoming value and whose B field is untouched; a write with mergeFields
omitted replaces the entire document with the incoming payload. -/
theorem write_merge_semantics (st : Store) (ref : DocRef) (payload old : Payload)
    (A B : String) (vA vB : PyVal)
    (hAB : A ≠ B) (hold : st ref = some old)
    (hA : payload A = some vA) (hB : old B = some vB) :
    (∃ p, FirebaseManager.write st ref payload (some [A]) ref = some p ∧
      p A = some vA ∧ p B = some vB) ∧
    FirebaseManager.write st ref payload none ref = some payload := by
  have hBA : B ≠ A := Ne.symm hAB
  constructor
  · refine ⟨fun f => if f ∈ [A] then payload f else old f, ?_, ?_, ?_⟩
    · simp [FirebaseManager.write, hold]
    · simp [hA]
    · simp [hBA, hB]
  · simp [FirebaseManager.write]

/-- C7 witness: on the concrete store holding payloadAB (fields "a" and
"b") at refPos, a merge-write of payloadA9 naming only "a" updates "a" to 9
and leaves "b" at 2; the same write with mergeFields omitted replaces the
whole document. -/
theorem write_merge_semantics_witness :
    (FirebaseManager.write storeOne refPos payloadA9 (some ["a"]) refPos).map
      (fun p => (p "a", p "b")) =
      some (some (PyVal.int 9), some (PyVal.int 2)) ∧
    FirebaseManager.write storeOne refPos payloadA9 none refPos = some payloadA9 := by
  obtain ⟨⟨p, hp, hpa, hpb⟩, hrepl⟩ :=
    write_merge_semantics storeOne refPos payloadA9 payloadAB "a" "b"
      (PyVal.int 9) (PyVal.int 2) (by decide) rfl rfl rfl
  refine ⟨?_, hrepl⟩
  rw [hp]
  simp [hpa, hpb]

/-! ## Claim C8 -/

/-- C8: delete is idempotent: deleting any reference yields a success
Operation Result, deleting it again yields success and leaves the store
unchanged, a read performed after the delete returns the distinguished
NotFound outcome, and deleting a reference at which no document exists is a
success rather than an error. -/
theorem delete_idempotent_notfound (st : Store) (ref : DocRef) :
    (FirebaseManager.delete st ref).1 = OpResult.success ∧
    (FirebaseManager.delete (FirebaseManager.delete st ref).2 ref).1 = OpResult.success ∧
    (FirebaseManager.delete (FirebaseManager.delete st ref).2 ref).2 =
      (FirebaseManager.delete st ref).2 ∧
    FirebaseManager.read (FirebaseManager.delete st ref).2 ref = ReadResult.notFound ∧
    (st ref = none → (FirebaseManager.delete st ref).1 = OpResult.success) := by
  refine ⟨rfl, rfl, ?_, ?_, fun _ => rfl⟩
  · funext r
    by_cases h : r = ref
    · simp [FirebaseManager.delete, h]
    · simp [FirebaseManager.delete, h]
  · simp [FirebaseManager.read, FirebaseManager.delete]

/-- C8 witness: deleting a reference that holds no document in the empty
store succeeds, and a read at that reference after the delete returns
NotFound. -/
theorem delete_idempotent_notfound_witness :
    (FirebaseManager.delete storeEmpty ("positions", "ghost")).1 = OpResult.success ∧
    FirebaseManager.read (FirebaseManager.delete storeEmpty ("positions", "ghost")).2
      ("positions", "ghost") = ReadResult.notFound :=
  ⟨(delete_idempotent_notfound storeEmpty ("positions", "ghost")).2.2.2.2 rfl,
   (delete_idempotent_notfound storeEmpty ("positions", "ghost")).2.2.2.1⟩

end ACQDTE
